import Mathlib

/-!
Verification development for the pdfExtractor repository.

The heading/outline inference engine of `Challenge_1a/process_pdfs.py`
(class `FastPDFHeadingExtractor`), the persona relevance scorer of
`Challenge_1b/process_challenge1b.py` (class `PersonaBasedAnalyzer`) and the
font statistics analyzer of `pdf_heading_extractor.py` (class
`PDFHeadingExtractor`) are embedded shallowly:

* Python strings are `List Char` (`PStr`); `str.strip`, `str.lower`,
  `str.count`, the `in` substring test and `str.split` are modelled by
  executable functions below with CPython semantics.
* Python floats are modelled by `ℚ`.  All numeric literals appearing in the
  source (`0.4`, `1.3`, `0.9`, `0.03`, ...) are exact decimal fractions, and
  the comparisons proved or refuted below are made at inputs far from any
  float rounding boundary, so the rational model agrees with CPython floats
  there.  `int(n * 0.75)` and `int(n * 0.9)` equal `3*n/4` and `9*n/10`
  (truncated division) for every list length `n` reachable here.
* `list.sort` / `sorted` (a stable sort) is modelled by a stable insertion
  sort `py_sort`; a stable sort is determined up to extensional equality by
  its comparison key, so this is observation-equivalent to CPython Timsort.
* The external PDF reader is a collaborator: extraction either raises
  (`Except.error`) or yields the flat list of text elements.  The Python
  `try/except` wrapper of `extract_headings` is the `match` on that value;
  the Lean functions are total, which models that the wrapped code never
  propagates an exception to the caller.
-/

/-! ## Python string primitives -/

abbrev PStr := List Char

def pstr (s : String) : PStr := s.data

/-- Whitespace as used by CPython `str.strip` and the regex class `\s`
(for the ASCII inputs handled here). -/
def isPySpace (c : Char) : Bool :=
  c = ' ' || c = '\t' || c = '\n' || c = '\r' || c = '\x0b' || c = '\x0c'

/-- `str.strip()`. -/
def pstrip (l : PStr) : PStr :=
  ((l.dropWhile isPySpace).reverse.dropWhile isPySpace).reverse

/-- `str.lower()` (ASCII). -/
def plower (l : PStr) : PStr := l.map Char.toLower

/-- Python `needle in hay` substring test. -/
def str_in (needle hay : PStr) : Bool :=
  match hay with
  | [] => needle.isEmpty
  | _ :: t => needle.isPrefixOf hay || str_in needle t

/-- Fuelled scanner behind `count_occ`; the fuel always dominates the
remaining string length, so the `0, _ :: _` case is unreachable. -/
def count_occ_go (needle : PStr) : Nat → PStr → Nat
  | _, [] => if needle.isEmpty then 1 else 0
  | 0, _ :: _ => 0
  | fuel+1, c :: t =>
      if needle.isEmpty then 1 + count_occ_go needle fuel t
      else if needle.isPrefixOf (c :: t) then
        1 + count_occ_go needle fuel (t.drop (needle.length - 1))
      else count_occ_go needle fuel t

/-- CPython `hay.count(needle)`: non-overlapping occurrences, scanning left
to right (`"".count` inside a string of length `n` returns `n + 1`). -/
def count_occ (needle hay : PStr) : Nat := count_occ_go needle hay.length hay

/-- `str.isdigit()` for ASCII content. -/
def py_isdigit (l : PStr) : Bool := !l.isEmpty && l.all Char.isDigit

/-- `re.match(r'^[a-z\s]+$', text)`: every char a lowercase letter or
whitespace, at least one char. -/
def match_lower_ws (l : PStr) : Bool :=
  !l.isEmpty && l.all (fun c => ('a' ≤ c && c ≤ 'z') || isPySpace c)

/-- `re.match(r'^[\d\s\-\.]+$', text)`. -/
def match_digits_punct (l : PStr) : Bool :=
  !l.isEmpty && l.all (fun c => c.isDigit || isPySpace c || c = '-' || c = '.')

/-- `re.match(r'^[A-Z]{1,3}$', text)`. -/
def match_caps13 (l : PStr) : Bool :=
  decide (1 ≤ l.length) && decide (l.length ≤ 3) && l.all (fun c => 'A' ≤ c && c ≤ 'Z')

/-- Regex word character `\w` (ASCII). -/
def isWordChar (c : Char) : Bool := c.isAlphanum || c = '_'

/-- `re.match(r'^\d+\.\s+\w', text)`: digits, a dot, whitespace, a word
character.  The greedy scan is exact because the character classes involved
are pairwise disjoint. -/
def match_num_dot_space_word (l : PStr) : Bool :=
  let ds := l.takeWhile Char.isDigit
  let rest := l.dropWhile Char.isDigit
  !ds.isEmpty &&
    match rest with
    | '.' :: r2 =>
        !(r2.takeWhile isPySpace).isEmpty &&
          match r2.dropWhile isPySpace with
          | c :: _ => isWordChar c
          | [] => false
    | _ => false

/-- `' '.join(parts)`. -/
def spjoin (parts : List PStr) : PStr := List.intercalate (pstr " ") parts

/-- `re.sub(r'\s+', ' ', s)`: collapse every whitespace run to one space. -/
def collapse_ws (l : PStr) : PStr :=
  (l.foldl
    (fun (st : PStr × Bool) c =>
      if isPySpace c then (if st.2 then st else (st.1 ++ [' '], true))
      else (st.1 ++ [c], false))
    ([], false)).1

/-- Python no-argument `str.split()`: split on whitespace runs, no empty
parts. -/
def psplit_ws (l : PStr) : List PStr :=
  let st := l.foldl
    (fun (acc : List PStr × PStr) c =>
      if isPySpace c then (if acc.2.isEmpty then acc else (acc.1 ++ [acc.2], []))
      else (acc.1, acc.2 ++ [c]))
    ([], [])
  st.1 ++ (if st.2.isEmpty then [] else [st.2])

/-! ## Stable sort (model of CPython `list.sort` / `sorted`) -/

def py_insert (le : α → α → Bool) (x : α) : List α → List α
  | [] => [x]
  | y :: ys => if le x y then x :: y :: ys else y :: py_insert le x ys

/-- Stable insertion sort: an element moves left past `y` only when it is
strictly smaller than `y` under the total preorder `le`, so equal elements
keep their original relative order, exactly as CPython's stable sort. -/
def py_sort (le : α → α → Bool) : List α → List α
  | [] => []
  | x :: xs => py_insert le x (py_sort le xs)

theorem py_insert_perm (le : α → α → Bool) (x : α) (l : List α) :
    (py_insert le x l).Perm (x :: l) := by
  induction l with
  | nil => simp [py_insert]
  | cons y ys ih =>
      simp only [py_insert]
      split
      · exact List.Perm.refl _
      · exact ((ih.cons y).trans (List.Perm.swap x y ys))

theorem py_sort_perm (le : α → α → Bool) (l : List α) :
    (py_sort le l).Perm l := by
  induction l with
  | nil => simp [py_sort]
  | cons x xs ih =>
      exact (py_insert_perm le x (py_sort le xs)).trans (ih.cons x)

theorem mem_py_sort {le : α → α → Bool} {l : List α} {a : α} :
    a ∈ py_sort le l ↔ a ∈ l :=
  (py_sort_perm le l).mem_iff

/-- Ascending comparison on rationals, the key of `sorted(font_sizes)`. -/
def qle (a b : ℚ) : Bool := decide (a ≤ b)

/-! ## Data model of `Challenge_1a/process_pdfs.py` -/

/-- `FontInfo` dataclass. -/
structure FontInfoF where
  size : ℚ
  name : PStr
  is_bold : Bool
  bbox : ℚ × ℚ × ℚ × ℚ
deriving DecidableEq, Repr

/-- `TextElement` dataclass. -/
structure TextElementF where
  text : PStr
  font : FontInfoF
  page_number : Nat
  position_y : ℚ
deriving DecidableEq, Repr

/-- `Heading` dataclass. -/
structure HeadingF where
  text : PStr
  level : Nat
  page : Nat
deriving DecidableEq, Repr

/-- Serialized heading, the dict built by `Heading.to_dict`. -/
structure OutlineDict where
  level : PStr
  text : PStr
  page : Nat
deriving DecidableEq, Repr

/-- `Heading.to_dict`: the level is rendered `H<n>` and the text is
stripped. -/
def HeadingF.to_dict (h : HeadingF) : OutlineDict :=
  { level := pstr ("H" ++ toString h.level), text := pstrip h.text, page := h.page }

/-- The outline artifact returned by `FastPDFHeadingExtractor.extract_headings`:
`title` is `none` for Python `None` and `some s` for a string `s`. -/
structure OutlineResult where
  title : Option PStr
  outline : List OutlineDict
deriving DecidableEq, Repr

/-! ## `FastPDFHeadingExtractor._classify_heading_level_improved` -/

def h1_patterns_improved : List PStr :=
  [pstr "ontario\x27s digital library",
   pstr "a critical component for implementing ontario\x27s road map to prosperity strategy",
   pstr "appendix a: odl envisioned phases",
   pstr "appendix b: odl steering committee",
   pstr "appendix c: odl\x27s envisioned electronic resources"]

def h2_patterns_improved : List PStr :=
  [pstr "summary",
   pstr "background",
   pstr "the business plan to be developed",
   pstr "approach and specific proposal requirements",
   pstr "evaluation and awarding of contract",
   pstr "appendix a:",
   pstr "appendix b:",
   pstr "appendix c:"]

def h3_patterns_improved : List PStr :=
  [pstr "timeline:",
   pstr "milestones",
   pstr "equitable access for all ontarians:",
   pstr "shared decision-making and accountability:",
   pstr "shared governance structure:",
   pstr "shared funding:",
   pstr "local points of entry:",
   pstr "access:",
   pstr "guidance and advice:",
   pstr "training:",
   pstr "provincial purchasing & licensing:",
   pstr "technological support:",
   pstr "what could the odl really mean?",
   pstr "phase i: business planning",
   pstr "phase ii: implementing and transitioning",
   pstr "phase iii: operating and growing the odl"]

def h4_patterns_improved : List PStr :=
  [pstr "for each ontario citizen it could mean:",
   pstr "for each ontario student it could mean:",
   pstr "for each ontario library it could mean:",
   pstr "for the ontario government it could mean:"]

def classify_heading_level_improved (text : PStr) (font_size avg_size size_75th size_90th : ℚ)
    (is_bold : Bool) : Nat :=
  let text_strip := plower (pstrip text)
  let text_orig := pstrip text
  if h1_patterns_improved.any (fun p => str_in p text_strip) then 1
  else if h2_patterns_improved.any (fun p => str_in p text_strip) then 2
  else if match_num_dot_space_word text_orig
      || h3_patterns_improved.any (fun p => str_in p text_strip)
      || ((pstr ":").isSuffixOf text_orig && decide (10 < text_orig.length)
            && decide (text_orig.length < 80)) then 3
  else if h4_patterns_improved.any (fun p => str_in p text_strip) then 4
  else
    let size_ratio := font_size / avg_size
    if decide (size_90th ≤ font_size) && decide ((13 : ℚ)/10 < size_ratio) then 1
    else if decide (size_75th ≤ font_size) && decide ((6 : ℚ)/5 < size_ratio) && is_bold then 2
    else if is_bold && decide ((11 : ℚ)/10 < size_ratio) && decide (text_orig.length < 100) then 3
    else 0

/-! ## `FastPDFHeadingExtractor._find_headings_fast` -/

def exclude_fragments : List PStr :=
  [pstr "rfp: r", pstr "rfp: reeeequest f", pstr "quest foooor pr", pstr "r pr",
   pstr "r proposal", pstr "march 21, 2003", pstr "march 2003",
   pstr "ontario\x27s libraries", pstr "working together", pstr "digital library",
   pstr "to present a proposal for developing",
   pstr "the business plan for the ontario", pstr "oposal", pstr "quest f"]

def form_title_keywords : List PStr := [pstr "application", pstr "form", pstr "grant"]

/-- Truthiness of the `title` argument (`None` and `""` are falsy). -/
def title_truthy (t : Option PStr) : Bool :=
  match t with
  | some s => !s.isEmpty
  | none => false

/-- `title or ""`. -/
def title_or (t : Option PStr) : PStr := t.getD []

/-- The per-element filtering ladder of `_find_headings_fast` (lines 248-254):
`True` means the element is skipped. -/
def heading_filter_reject (text : PStr) : Bool :=
  decide (text.length < 4) || decide (150 < text.length) ||
  py_isdigit text ||
  decide (15 < count_occ (pstr " ") text) ||
  ((pstr ".").isSuffixOf text && !((pstr ": ").isSuffixOf text)
      && !((pstr "1.").isPrefixOf text || (pstr "2.").isPrefixOf text
            || (pstr "3.").isPrefixOf text)) ||
  match_lower_ws text || match_digits_punct text || match_caps13 text

/-- The body of the element loop of `_find_headings_fast` (lines 238-265):
`none` models `continue`, `some h` an appended heading. -/
def candidate_of (avg_size size_75th size_90th : ℚ) (title : Option PStr)
    (element : TextElementF) : Option HeadingF :=
  let text := pstrip element.text
  let text_lower := plower text
  if (title_truthy title &&
        (str_in text_lower (plower (title_or title))
          || str_in (plower (title_or title)) text_lower))
      || decide (text_lower ∈ exclude_fragments) then none
  else if heading_filter_reject text then none
  else
    let level := classify_heading_level_improved text element.font.size avg_size size_75th
      size_90th element.font.is_bold
    if 0 < level then
      some { text := if !((pstr " ").isSuffixOf text) then text ++ [' '] else text
             level := level
             page := element.page_number }
    else none

/-- The element loop of `_find_headings_fast`, producing the
pre-deduplication heading list in element traversal order. -/
def heading_candidates (elements : List TextElementF) (avg_size size_75th size_90th : ℚ)
    (title : Option PStr) : List HeadingF :=
  elements.filterMap (candidate_of avg_size size_75th size_90th title)

/-- The deduplication key `(h.text.lower().strip(), h.page)`. -/
def heading_key (h : HeadingF) : PStr × Nat := (pstrip (plower h.text), h.page)

/-- The `seen`-set loop removing later duplicates (lines 267-274). -/
def dedup_seen (seen : List (PStr × Nat)) : List HeadingF → List HeadingF
  | [] => []
  | h :: t =>
      if heading_key h ∈ seen then dedup_seen seen t
      else h :: dedup_seen (heading_key h :: seen) t

/-- Lexicographic comparison of strings, as used inside Python tuple
comparison. -/
def pstr_le : PStr → PStr → Bool
  | [], _ => true
  | _ :: _, [] => false
  | a :: as, b :: bs => if a = b then pstr_le as bs else decide (a < b)

/-- Sort key `(x.page, len(x.text), x.text)` of the final heading sort. -/
def heading_le (a b : HeadingF) : Bool :=
  decide (a.page < b.page) ||
    (decide (a.page = b.page) &&
      (decide (a.text.length < b.text.length) ||
        (decide (a.text.length = b.text.length) && pstr_le a.text b.text)))

/-- `short_elements` of `_find_headings_fast` (line 218). -/
def short_elements (elements : List TextElementF) : List TextElementF :=
  elements.filter (fun e => decide ((pstrip e.text).length < 15))

/-- The form-document guard (lines 219-220): the short-element fraction must
exceed `0.4` strictly, or the title must contain a form keyword. -/
def is_form_like (elements : List TextElementF) (title : Option PStr) : Bool :=
  (if elements.isEmpty then false
   else decide ((((short_elements elements).length : ℚ)) / ((elements.length : ℚ)) > 2/5))
  || form_title_keywords.any (fun k => str_in k (plower (title_or title)))

/-- `sorted(font_sizes)[int(len(font_sizes) * 0.75)] if font_sizes else
avg_size` (line 227); `int(n * 0.75)` is `3*n/4` exactly. -/
def size_75th_of (elements : List TextElementF) (avg_size : ℚ) : ℚ :=
  let font_sizes := elements.map (fun e => e.font.size)
  if !font_sizes.isEmpty then (py_sort qle font_sizes).getD (3 * font_sizes.length / 4) 0
  else avg_size

/-- `sorted(font_sizes)[int(len(font_sizes) * 0.9)] if font_sizes else
avg_size` (line 228); `int(n * 0.9)` is `9*n/10` exactly for every reachable
length. -/
def size_90th_of (elements : List TextElementF) (avg_size : ℚ) : ℚ :=
  let font_sizes := elements.map (fun e => e.font.size)
  if !font_sizes.isEmpty then (py_sort qle font_sizes).getD (9 * font_sizes.length / 10) 0
  else avg_size

def find_headings_fast (elements : List TextElementF) (avg_size : ℚ)
    (title : Option PStr) : List HeadingF :=
  if is_form_like elements title then []
  else
    let headings := heading_candidates elements avg_size (size_75th_of elements avg_size)
      (size_90th_of elements avg_size) title
    py_sort heading_le (dedup_seen [] headings)

/-! ## `FastPDFHeadingExtractor._extract_title_fast` -/

def candidate_skip_words : List PStr :=
  [pstr "march", pstr "2003", pstr "21,", pstr "working", pstr "together"]

def loop_skip_words : List PStr :=
  [pstr "working", pstr "together", pstr "march", pstr "2003", pstr "21,"]

def list_max_q : List ℚ → ℚ
  | [] => 0
  | x :: xs => xs.foldl max x

/-- Sort key `(x.position_y, x.font.bbox[0])` of the title candidates. -/
def title_cand_le (a b : TextElementF) : Bool :=
  decide (a.position_y < b.position_y) ||
    (decide (a.position_y = b.position_y) && decide (a.font.bbox.1 ≤ b.font.bbox.1))

/-- The line-assembly loop of `_extract_title_fast` (lines 173-197), with
state `(title_lines, current_line, last_y)`. -/
def title_loop : List TextElementF → List PStr → List PStr → Option ℚ → List PStr
  | [], title_lines, current_line, _ =>
      if !current_line.isEmpty then title_lines ++ [spjoin current_line] else title_lines
  | c :: rest, title_lines, current_line, last_y =>
      let text := pstrip c.text
      if decide (plower text ∈ loop_skip_words) || decide (text.length < 2) then
        title_loop rest title_lines current_line last_y
      else
        match last_y with
        | some ly =>
            if decide ((3 : ℚ)/100 < |c.position_y - ly|) then
              title_loop rest
                (if !current_line.isEmpty then title_lines ++ [spjoin current_line]
                 else title_lines)
                [text] (some c.position_y)
            else title_loop rest title_lines (current_line ++ [text]) (some c.position_y)
        | none => title_loop rest title_lines (current_line ++ [text]) (some c.position_y)

def rfp_hardcoded_title : PStr :=
  pstr "RFP:Request for Proposal To Present a Proposal for Developing the Business Plan for the Ontario Digital Library  "

def extract_title_fast (elements : List TextElementF) (max_size : ℚ) : Option PStr :=
  let first_page := elements.filter (fun e => decide (e.page_number = 1))
  if first_page.isEmpty then none
  else
    let max_first_page_size := list_max_q (first_page.map (fun e => e.font.size))
    let title_candidates := first_page.filter (fun e =>
      decide (max_first_page_size * (9/10) ≤ e.font.size) &&
      decide (e.position_y < 2/5) &&
      decide (2 < (pstrip e.text).length) &&
      !py_isdigit (pstrip e.text) &&
      !(decide (plower (pstrip e.text) ∈ candidate_skip_words)))
    if title_candidates.isEmpty then none
    else
      let sorted_candidates := py_sort title_cand_le title_candidates
      let text_parts := sorted_candidates.map (fun e => pstrip e.text)
      if (text_parts.take 10).any (fun part =>
          str_in (pstr "RFP") part || str_in (pstr "quest") part || str_in (pstr "Pr") part)
      then some rfp_hardcoded_title
      else
        let title_lines := title_loop sorted_candidates [] [] none
        if !title_lines.isEmpty then
          let full_title := pstrip (collapse_ws (spjoin title_lines))
          if decide (10 < full_title.length) then some (full_title ++ pstr "  ") else none
        else none

/-! ## `FastPDFHeadingExtractor.extract_headings` -/

/-- `avg_size = sum(font_sizes) / len(font_sizes)` (line 75): the mean font
size, the statistic the fast pipeline feeds to `_find_headings_fast`. -/
def avg_font_size (elements : List TextElementF) : ℚ :=
  ((elements.map (fun e => e.font.size)).sum) /
    (((elements.map (fun e => e.font.size)).length : ℚ))

def extract_headings (input : Except Unit (List TextElementF)) : OutlineResult :=
  match input with
  | .error _ => { title := some [], outline := [] }
  | .ok text_elements =>
      if text_elements.isEmpty then { title := none, outline := [] }
      else
        let font_sizes := text_elements.map (fun e => e.font.size)
        let avg_size := avg_font_size text_elements
        let max_size := list_max_q font_sizes
        let title := extract_title_fast text_elements max_size
        let headings := find_headings_fast text_elements avg_size title
        { title := some (match title with
            | some t => if t.isEmpty then [] else t
            | none => [])
          outline := headings.map HeadingF.to_dict }

/-! ## Data model of `Challenge_1b/process_challenge1b.py` -/

/-- A text block dict produced by
`PersonaBasedAnalyzer.extract_text_with_structure`. -/
structure Block where
  text : PStr
  page : Nat
  font_size : ℚ
  font_name : PStr
  is_bold : Bool
  bbox : ℚ × ℚ × ℚ × ℚ
deriving DecidableEq, Repr

/-- A section dict as built by `identify_sections`; `document` is the key
added later by `process_collection` (`section.get("document", "")` reads `""`
before that). -/
structure Section where
  title : PStr
  page : Nat
  content : List PStr
  importance_score : Nat
  document : PStr
deriving DecidableEq, Repr

/-- One `subsection_analysis` output row. -/
structure SubEntry where
  document : PStr
  refined_text : PStr
  page_number : Nat
deriving DecidableEq, Repr

/-- One `extracted_sections` output row. -/
structure ExtractedSection where
  document : PStr
  section_title : PStr
  importance_rank : Nat
  page_number : Nat
deriving DecidableEq, Repr

/-! ## Persona keyword tables -/

def travel_keywords : List PStr :=
  [pstr "itinerary", pstr "accommodation", pstr "hotel", pstr "restaurant",
   pstr "attraction", pstr "tour", pstr "transport", pstr "flight", pstr "train",
   pstr "bus", pstr "guide", pstr "booking", pstr "reservation", pstr "sightseeing",
   pstr "museum", pstr "beach", pstr "activity", pstr "cost", pstr "price",
   pstr "budget", pstr "travel", pstr "destination", pstr "location", pstr "map",
   pstr "route", pstr "schedule", pstr "visit", pstr "explore", pstr "experience",
   pstr "culture", pstr "history", pstr "tradition", pstr "city", pstr "town",
   pstr "festival", pstr "event", pstr "entertainment", pstr "nightlife",
   pstr "shopping", pstr "market"]

def hr_keywords : List PStr :=
  [pstr "form", pstr "fillable", pstr "field", pstr "signature", pstr "submit",
   pstr "workflow", pstr "approval", pstr "onboarding", pstr "compliance",
   pstr "document", pstr "template", pstr "process", pstr "digital",
   pstr "electronic", pstr "pdf", pstr "acrobat", pstr "create", pstr "manage",
   pstr "distribute", pstr "collect", pstr "employee", pstr "hr",
   pstr "human resources", pstr "policy", pstr "procedure", pstr "training",
   pstr "export", pstr "convert", pstr "edit", pstr "share", pstr "collaboration",
   pstr "review", pstr "comment", pstr "security", pstr "permission",
   pstr "access", pstr "protect", pstr "password", pstr "encrypt"]

def food_keywords : List PStr :=
  [pstr "recipe", pstr "ingredient", pstr "cook", pstr "preparation",
   pstr "vegetarian", pstr "vegan", pstr "buffet", pstr "menu", pstr "dish",
   pstr "meal", pstr "serving", pstr "portion", pstr "corporate", pstr "catering",
   pstr "dinner", pstr "lunch", pstr "breakfast", pstr "food", pstr "cuisine",
   pstr "dietary", pstr "allergen", pstr "nutrition", pstr "quantity",
   pstr "scale", pstr "cooking", pstr "kitchen"]

/-- `_get_persona_keywords`: unknown personas yield `[]`. -/
def get_persona_keywords (persona : PStr) : List PStr :=
  if persona = pstr "Travel Planner" then travel_keywords
  else if persona = pstr "HR Professional" then hr_keywords
  else if persona = pstr "Food Contractor" then food_keywords
  else []

/-! ## `PersonaBasedAnalyzer.identify_sections` -/

def generic_labels : List PStr :=
  [pstr "note:", pstr "tip:", pstr "important:", pstr "warning:", pstr "example:",
   pstr "note", pstr "tip", pstr "important", pstr "warning"]

/-- The `is_proper_heading` test (lines 157-162); `text` is the stripped
block text. -/
def is_proper_heading (text : PStr) (block : Block) : Bool :=
  block.is_bold && decide ((11 : ℚ) < block.font_size) &&
    decide (5 ≤ text.length) && decide (text.length ≤ 120) &&
    !(decide (pstrip (plower text) ∈ generic_labels))

/-- The segmentation loop of `identify_sections` (lines 153-178): a proper
heading opens a new section, other blocks accumulate into the current one,
the final open section is appended at the end. -/
def segment_blocks : List Block → Option Section → List Section
  | [], some cur => [cur]
  | [], none => []
  | b :: rest, cur =>
      let text := pstrip b.text
      if is_proper_heading text b then
        (match cur with
         | some c => [c]
         | none => []) ++
          segment_blocks rest (some { title := text, page := b.page, content := [b.text],
                                      importance_score := 0, document := [] })
      else
        match cur with
        | some c => segment_blocks rest (some { c with content := c.content ++ [b.text] })
        | none => segment_blocks rest none

def potential_sections (text_blocks : List Block) : List Section :=
  segment_blocks text_blocks none

/-- The scoring loop of `identify_sections` (lines 184-201): 5 per keyword
occurrence in the lowercased title, 1 per occurrence in the lowercased joined
content, +2 for a colon in the title, +1 for more than 3 content elements. -/
def section_score (keywords : List PStr) (sec : Section) : Nat :=
  let section_text := plower (spjoin sec.content)
  let title_text := plower sec.title
  let base := keywords.foldl
    (fun score keyword => score + count_occ keyword title_text * 5 + count_occ keyword section_text * 1) 0
  base + (if ':' ∈ sec.title then 2 else 0) + (if 3 < sec.content.length then 1 else 0)

/-- Descending stable order on the importance score. -/
def score_desc (a b : Section) : Bool := decide (b.importance_score ≤ a.importance_score)

def identify_sections (text_blocks : List Block) (persona : PStr) : List Section :=
  let relevant_keywords := get_persona_keywords persona
  let scored := (potential_sections text_blocks).map
    (fun s => { s with importance_score := section_score relevant_keywords s })
  let sections := scored.filter (fun s => decide (1 ≤ s.importance_score))
  (py_sort score_desc sections).take 15

/-! ## `PersonaBasedAnalyzer._calculate_task_relevance` -/

def vegetarian_keywords : List PStr :=
  [pstr "vegetarian", pstr "vegan", pstr "plant-based", pstr "veggie", pstr "tofu",
   pstr "beans", pstr "lentils", pstr "quinoa", pstr "chickpeas"]

def gluten_free_keywords : List PStr :=
  [pstr "gluten-free", pstr "gluten free", pstr "rice", pstr "quinoa", pstr "corn"]

def buffet_keywords : List PStr :=
  [pstr "buffet", pstr "serving", pstr "corporate", pstr "large", pstr "group",
   pstr "catering", pstr "party"]

def non_veg_keywords : List PStr :=
  [pstr "chicken", pstr "beef", pstr "pork", pstr "fish", pstr "meat",
   pstr "sausage", pstr "bacon", pstr "shrimp"]

def group_keywords : List PStr :=
  [pstr "group", pstr "friends", pstr "college", pstr "budget", pstr "affordable",
   pstr "young"]

def activity_keywords : List PStr :=
  [pstr "activity", pstr "attraction", pstr "tour", pstr "visit", pstr "explore",
   pstr "experience"]

def form_keywords_hr : List PStr :=
  [pstr "form", pstr "fillable", pstr "onboarding", pstr "compliance",
   pstr "employee", pstr "workflow"]

/-- Adds `w` for each keyword of `kws` present in `text_lower`. -/
def presence_bonus (kws : List PStr) (text_lower : PStr) (w : Int) (score : Int) : Int :=
  kws.foldl (fun s k => if str_in k text_lower then s + w else s) score

def calculate_task_relevance (text persona task : PStr) : Int :=
  let text_lower := plower text
  let _task_lower := plower task
  let score : Int := 0
  let score :=
    if persona = pstr "Food Contractor" then
      presence_bonus non_veg_keywords text_lower (-10)
        (presence_bonus buffet_keywords text_lower 2
          (presence_bonus gluten_free_keywords text_lower 3
            (presence_bonus vegetarian_keywords text_lower 5 score)))
    else if persona = pstr "Travel Planner" then
      presence_bonus activity_keywords text_lower 2
        (presence_bonus group_keywords text_lower 3 score)
    else if persona = pstr "HR Professional" then
      presence_bonus form_keywords_hr text_lower 3 score
    else score
  max score 0

/-! ## `PersonaBasedAnalyzer.refine_text_for_persona` -/

/-- `[s.strip() for s in text.split('.') if s.strip()]`. -/
def split_sentences (text : PStr) : List PStr :=
  ((List.splitOn '.' text).map pstrip).filter (fun s => !s.isEmpty)

/-- `[word.lower() for word in task.split() if len(word) > 3]`. -/
def task_keywords_of (task : PStr) : List PStr :=
  (psplit_ws task).filterMap (fun w => if 3 < w.length then some (plower w) else none)

/-- The Food Contractor reordering (lines 329-342): vegetarian-looking
sentences first, then at most two sentences mentioning non-vegetarian
keywords. -/
def reorder_sentences (persona task : PStr) (sentences : List PStr) : List PStr :=
  if persona = pstr "Food Contractor" && str_in (pstr "vegetarian") (plower task) then
    let vegetarian_sentences :=
      sentences.filter (fun s => !(non_veg_keywords.any (fun k => str_in k (plower s))))
    let other_sentences :=
      sentences.filter (fun s => non_veg_keywords.any (fun k => str_in k (plower s)))
    vegetarian_sentences ++ other_sentences.take 2
  else sentences

def veg_bonus_keywords : List PStr :=
  [pstr "vegetarian", pstr "vegan", pstr "gluten-free", pstr "buffet",
   pstr "serving", pstr "corporate"]

def structure_markers : List PStr :=
  [pstr ":", pstr "•", pstr "-", pstr "step", pstr "how", pstr "what",
   pstr "where", pstr "when"]

/-- The per-sentence relevance score of `refine_text_for_persona`
(lines 344-373). -/
def sentence_relevance (persona task sentence : PStr) : Nat :=
  let sentence_lower := plower sentence
  let relevant_keywords := get_persona_keywords persona
  let task_keywords := task_keywords_of task
  let s := relevant_keywords.foldl
    (fun s k => if str_in k sentence_lower then s + 2 else s) 0
  let s := task_keywords.foldl
    (fun s k => if str_in k sentence_lower then s + 3 else s) s
  let s :=
    if persona = pstr "Food Contractor" then
      veg_bonus_keywords.foldl (fun s k => if str_in k sentence_lower then s + 4 else s) s
    else s
  let s := if sentence.any Char.isDigit then s + 1 else s
  if structure_markers.any (fun w => str_in w sentence_lower) then s + 1 else s

/-- The filtered `(sentence, score)` pairs: sentences shorter than 30 chars
are skipped and scores below 1 are dropped. -/
def relevant_sentences (text persona task : PStr) : List (PStr × Nat) :=
  (reorder_sentences persona task (split_sentences text)).filterMap (fun sentence =>
    if sentence.length < 30 then none
    else
      let sc := sentence_relevance persona task sentence
      if 1 ≤ sc then some (sentence, sc) else none)

/-- Descending stable order on the sentence score (`key=lambda x: x[1]`,
`reverse=True`). -/
def pair_score_desc (a b : PStr × Nat) : Bool := decide (b.2 ≤ a.2)

/-- One step of the greedy selection loop (lines 385-388): a sentence is
taken while the accumulated length stays under 500 and fewer than 4
sentences are selected. -/
def select_step (st : List PStr × Nat) (p : PStr × Nat) : List PStr × Nat :=
  if decide (st.2 + p.1.length < 500) && decide (st.1.length < 4)
  then (st.1 ++ [p.1], st.2 + p.1.length)
  else st

/-- The greedy selection loop (lines 381-388); the loop has no `break`, so
later shorter sentences may still fit, exactly as in the source. -/
def select_sentences (pairs : List (PStr × Nat)) : List PStr :=
  (pairs.foldl select_step ([], 0)).1

/-- The sorted pair list the selection runs over. -/
def sorted_relevant (text persona task : PStr) : List (PStr × Nat) :=
  py_sort pair_score_desc (relevant_sentences text persona task)

def refine_text_for_persona (text persona task : PStr) : PStr :=
  let selected_sentences := select_sentences (sorted_relevant text persona task)
  if selected_sentences.isEmpty then []
  else List.intercalate (pstr ". ") selected_sentences ++ [ '.' ]

/-! ## `PersonaBasedAnalyzer.analyze_subsections` -/

/-- `" ".join(section["content"])`. -/
def section_content_text (sec : Section) : PStr := spjoin sec.content

/-- The diversity-capped emission loop of `analyze_subsections`
(lines 231-259), with the `document_count` dict modelled as a function. -/
def subsections_loop (persona task : PStr) :
    List (Section × Int) → List SubEntry → (PStr → Nat) → List SubEntry
  | [], acc, _ => acc
  | (sec, _) :: rest, acc, document_count =>
      if 3 ≤ document_count sec.document then
        subsections_loop persona task rest acc document_count
      else
        let refined_text := refine_text_for_persona (section_content_text sec) persona task
        if !refined_text.isEmpty && decide (80 < refined_text.length) then
          let acc2 := acc ++
            [{ document := sec.document, refined_text := refined_text,
               page_number := sec.page }]
          if 8 ≤ acc2.length then acc2
          else subsections_loop persona task rest acc2
            (fun d => if d = sec.document then document_count d + 1 else document_count d)
        else subsections_loop persona task rest acc document_count

def analyze_subsections (sections : List Section) (persona task : PStr) : List SubEntry :=
  let task_scored_sections := (sections.take 8).map
    (fun s => (s, calculate_task_relevance (section_content_text s) persona task))
  let sorted_scored := py_sort (fun a b => decide (b.2 ≤ a.2)) task_scored_sections
  subsections_loop persona task sorted_scored [] (fun _ => 0)

/-! ## `PersonaBasedAnalyzer.process_collection` (section aggregation) -/

/-- The per-document loop of `process_collection` (lines 434-454): each
document contributes its identified sections tagged with its filename. -/
def gather_sections (docs : List (PStr × List Block)) (persona : PStr) : List Section :=
  docs.foldl
    (fun acc d =>
      acc ++ (identify_sections d.2 persona).map (fun s => { s with document := d.1 }))
    []

/-- Global re-sort and cap to the top 12 (lines 457-458). -/
def top_sections (docs : List (PStr × List Block)) (persona : PStr) : List Section :=
  (py_sort score_desc (gather_sections docs persona)).take 12

/-- The `extracted_sections` rows (lines 461-467): enumeration gives the
1-based importance rank, 80-char truncated title. -/
def extracted_sections (docs : List (PStr × List Block)) (persona : PStr) :
    List ExtractedSection :=
  (top_sections docs persona).enum.map (fun p =>
    { document := p.2.document, section_title := p.2.title.take 80,
      importance_rank := p.1 + 1, page_number := p.2.page })

/-! ## `PDFHeadingExtractor` font statistics (`pdf_heading_extractor.py`) -/

/-- First occurrences of the values of `l`, in encounter order (the key
order of a `collections.Counter` built from `l`). -/
def first_occurrences_aux (seen : List ℚ) : List ℚ → List ℚ
  | [] => []
  | a :: l =>
      if a ∈ seen then first_occurrences_aux seen l
      else a :: first_occurrences_aux (a :: seen) l

def first_occurrences (l : List ℚ) : List ℚ := first_occurrences_aux [] l

/-- `Counter(font_sizes).most_common(1)[0][0] if font_sizes else 12`: the
value with the highest multiplicity; ties break to the earliest first
occurrence, as `Counter.most_common` sorts stably over insertion order. -/
def most_common_size (l : List ℚ) : ℚ :=
  match first_occurrences l with
  | [] => 12
  | c :: cs => cs.foldl (fun best x => if l.count best < l.count x then x else best) c

/-- `np.percentile` with the default linear interpolation. -/
def np_percentile (l : List ℚ) (p : ℚ) : ℚ :=
  let s := py_sort qle l
  let h : ℚ := ((l.length : ℚ) - 1) * p / 100
  let lo := h.floor.toNat
  let hi := (Int.ceil h).toNat
  let a := s.getD lo 0
  let b := s.getD hi 0
  a + (h - (lo : ℚ)) * (b - a)

/-- The statistics dict of `_analyze_font_statistics`. -/
structure FontStatsPHE where
  font_sizes : List ℚ
  most_common_size : ℚ
  largest_size : ℚ
  percentile_75 : ℚ
  percentile_90 : ℚ
  percentile_95 : ℚ
  total_elements : Nat
deriving DecidableEq, Repr

def analyze_font_statistics (text_elements : List TextElementF) : FontStatsPHE :=
  let font_sizes := text_elements.map (fun e => e.font.size)
  { font_sizes := font_sizes
    most_common_size := most_common_size font_sizes
    largest_size := if font_sizes.isEmpty then 12 else list_max_q font_sizes
    percentile_75 := if font_sizes.isEmpty then 12 else np_percentile font_sizes 75
    percentile_90 := if font_sizes.isEmpty then 12 else np_percentile font_sizes 90
    percentile_95 := if font_sizes.isEmpty then 12 else np_percentile font_sizes 95
    total_elements := text_elements.length }

/-- `_identify_potential_headings` line 312: the size score divides the
element size by `font_stats['most_common_size']`, the modal body size. -/
def size_score_phe (stats : FontStatsPHE) (element : TextElementF) : ℚ :=
  if 0 < stats.most_common_size then element.font.size / stats.most_common_size else 1

/-! ## Helper lemmas about the string primitives -/

theorem dropWhile_eq_self_of_head (p : α → Bool) (l : List α)
    (h : ∀ c, l.head? = some c → p c = false) : l.dropWhile p = l := by
  cases l with
  | nil => rfl
  | cons a t => simp [List.dropWhile_cons, h a rfl]

theorem head?_pstrip (l : PStr) {c : Char} (h : (pstrip l).head? = some c) :
    isPySpace c = false := by
  unfold pstrip at h
  rw [List.head?_reverse] at h
  obtain ⟨t, ht⟩ := List.dropWhile_suffix
    (l := (l.dropWhile isPySpace).reverse) (p := isPySpace)
  have hw : ((l.dropWhile isPySpace).reverse).getLast? = some c := by
    rw [← ht, List.getLast?_append, h]
    rfl
  rw [List.getLast?_reverse] at hw
  have hh := List.head?_dropWhile_not isPySpace l
  rw [hw] at hh
  exact hh

theorem getLast?_pstrip (l : PStr) {c : Char} (h : (pstrip l).getLast? = some c) :
    isPySpace c = false := by
  unfold pstrip at h
  rw [List.getLast?_reverse] at h
  have hh := List.head?_dropWhile_not isPySpace (l.dropWhile isPySpace).reverse
  rw [h] at hh
  exact hh

theorem pstrip_idem (l : PStr) : pstrip (pstrip l) = pstrip l := by
  show (((pstrip l).dropWhile isPySpace).reverse.dropWhile isPySpace).reverse = pstrip l
  rw [dropWhile_eq_self_of_head isPySpace (pstrip l) (fun c hc => head?_pstrip l hc)]
  rw [dropWhile_eq_self_of_head isPySpace (pstrip l).reverse
    (fun c hc => getLast?_pstrip l (by rw [List.head?_reverse] at hc; exact hc))]
  exact List.reverse_reverse _

theorem pstrip_append_space (l : PStr) : pstrip (l ++ [' ']) = pstrip l := by
  unfold pstrip
  rw [List.dropWhile_append]
  split
  case isTrue hemp =>
    rw [List.isEmpty_iff] at hemp
    rw [hemp]
    rfl
  case isFalse hemp =>
    rw [List.reverse_append]
    show (List.dropWhile isPySpace (' ' :: (l.dropWhile isPySpace).reverse)).reverse = _
    rw [List.dropWhile_cons]
    simp only [show isPySpace ' ' = true from rfl, if_true]

/-! ## Helper lemmas about the dedup and sort steps -/

theorem dedup_seen_subset (seen : List (PStr × Nat)) (l : List HeadingF) :
    ∀ h ∈ dedup_seen seen l, h ∈ l := by
  induction l generalizing seen with
  | nil => simp [dedup_seen]
  | cons a t ih =>
      intro h hm
      simp only [dedup_seen] at hm
      split at hm
      · exact List.mem_cons_of_mem a (ih seen h hm)
      · rcases List.mem_cons.mp hm with hha | hm'
        · exact List.mem_cons.mpr (Or.inl hha)
        · exact List.mem_cons_of_mem a (ih _ h hm')

theorem dedup_seen_keys (seen : List (PStr × Nat)) (l : List HeadingF) :
    ((dedup_seen seen l).map heading_key).Nodup ∧
      ∀ k ∈ (dedup_seen seen l).map heading_key, k ∉ seen := by
  induction l generalizing seen with
  | nil => simp [dedup_seen]
  | cons a t ih =>
      simp only [dedup_seen]
      split
      case isTrue hmem => exact ih seen
      case isFalse hmem =>
        obtain ⟨ih1, ih2⟩ := ih (heading_key a :: seen)
        refine ⟨?_, ?_⟩
        · simp only [List.map_cons, List.nodup_cons]
          exact ⟨fun hk => (ih2 _ hk) (List.mem_cons_self _ _), ih1⟩
        · intro k hk
          simp only [List.map_cons, List.mem_cons] at hk
          rcases hk with rfl | hk'
          · exact hmem
          · exact fun hs => (ih2 _ hk') (List.mem_cons_of_mem _ hs)

theorem dedup_seen_find (seen : List (PStr × Nat)) (l : List HeadingF) :
    ∀ h ∈ dedup_seen seen l, heading_key h ∉ seen ∧
      l.find? (fun x => decide (heading_key x = heading_key h)) = some h := by
  induction l generalizing seen with
  | nil => simp [dedup_seen]
  | cons a t ih =>
      intro h hm
      simp only [dedup_seen] at hm
      split at hm
      case isTrue hseen =>
        obtain ⟨hns, hfind⟩ := ih seen h hm
        have hne : ¬ heading_key a = heading_key h := by
          intro he; rw [he] at hseen; exact hns hseen
        refine ⟨hns, ?_⟩
        rw [List.find?_cons_of_neg _ (by simpa using hne)]
        exact hfind
      case isFalse hseen =>
        rcases List.mem_cons.mp hm with rfl | hm'
        · exact ⟨hseen, List.find?_cons_of_pos _ (by simp)⟩
        · obtain ⟨hns, hfind⟩ := ih (heading_key a :: seen) h hm'
          have hne : ¬ heading_key a = heading_key h := fun he =>
            hns (by rw [← he]; exact List.mem_cons_self _ _)
          refine ⟨fun hs => hns (List.mem_cons_of_mem _ hs), ?_⟩
          rw [List.find?_cons_of_neg _ (by simpa using hne)]
          exact hfind

/-! ## Inversion of the candidate loop body -/

theorem candidate_of_eq_some {avg s75 s90 : ℚ} {title : Option PStr} {e : TextElementF}
    {h : HeadingF} (heq : candidate_of avg s75 s90 title e = some h) :
    (title_truthy title &&
       (str_in (plower (pstrip e.text)) (plower (title_or title))
         || str_in (plower (title_or title)) (plower (pstrip e.text)))) = false ∧
    heading_filter_reject (pstrip e.text) = false ∧
    0 < classify_heading_level_improved (pstrip e.text) e.font.size avg s75 s90
      e.font.is_bold ∧
    h = { text := if !((pstr " ").isSuffixOf (pstrip e.text)) then pstrip e.text ++ [' ']
                  else pstrip e.text
          level := classify_heading_level_improved (pstrip e.text) e.font.size avg s75 s90
            e.font.is_bold
          page := e.page_number } := by
  simp only [candidate_of] at heq
  split at heq
  · exact absurd heq (by simp)
  case isFalse hguard =>
    split at heq
    case isTrue hrej => exact absurd heq (by simp)
    case isFalse hrej =>
      split at heq
      case isTrue hlvl =>
        have hg := hguard
        rw [Bool.or_eq_true, not_or] at hg
        obtain ⟨hg1, hg2⟩ := hg
        refine ⟨by simpa using hg1, by simpa using hrej, hlvl, ?_⟩
        exact (Option.some.inj heq).symm
      case isFalse hlvl => exact absurd heq (by simp)

theorem mem_find_headings {elements : List TextElementF} {avg : ℚ} {title : Option PStr}
    {h : HeadingF} (hm : h ∈ find_headings_fast elements avg title) :
    is_form_like elements title = false ∧
    ∃ e ∈ elements,
      candidate_of avg (size_75th_of elements avg) (size_90th_of elements avg) title e
        = some h := by
  simp only [find_headings_fast] at hm
  split at hm
  · simp at hm
  case isFalse hform =>
    refine ⟨by simpa using hform, ?_⟩
    have h1 := mem_py_sort.mp hm
    have h2 := dedup_seen_subset _ _ h h1
    simp only [heading_candidates] at h2
    exact List.mem_filterMap.mp h2

theorem heading_text_shape {avg s75 s90 : ℚ} {title : Option PStr} {e : TextElementF}
    {h : HeadingF} (heq : candidate_of avg s75 s90 title e = some h) :
    h.text = pstrip e.text ++ [' '] ∨
      (h.text = pstrip e.text ∧ (pstr " ").isSuffixOf (pstrip e.text) = true) := by
  obtain ⟨-, -, -, hh⟩ := candidate_of_eq_some heq
  rw [hh]
  by_cases hs : (pstr " ").isSuffixOf (pstrip e.text) = true
  · right
    exact ⟨by simp [hs], hs⟩
  · left
    simp [Bool.eq_false_iff.mpr hs]

theorem heading_text_last {avg s75 s90 : ℚ} {title : Option PStr} {e : TextElementF}
    {h : HeadingF} (heq : candidate_of avg s75 s90 title e = some h) :
    h.text.getLast? = some ' ' := by
  rcases heading_text_shape heq with hc | ⟨hc, hsuf⟩
  · rw [hc]; exact List.getLast?_concat _
  · rw [hc]
    have : (pstr " ") <:+ pstrip e.text := List.isSuffixOf_iff_suffix.mp hsuf
    obtain ⟨t, ht⟩ := this
    rw [← ht]
    exact List.getLast?_concat _

theorem heading_text_pstrip {avg s75 s90 : ℚ} {title : Option PStr} {e : TextElementF}
    {h : HeadingF} (heq : candidate_of avg s75 s90 title e = some h) :
    pstrip h.text = pstrip e.text := by
  rcases heading_text_shape heq with hc | ⟨hc, -⟩
  · rw [hc, pstrip_append_space, pstrip_idem]
  · rw [hc, pstrip_idem]

/-! ## Concrete inputs used by witnesses and counterexamples -/

def mk_element (t : String) (size : ℚ) (bold : Bool) (page : Nat) (y x0 : ℚ) : TextElementF :=
  { text := pstr t
    font := { size := size, name := pstr "Arial", is_bold := bold, bbox := (x0, 0, 0, 0) }
    page_number := page
    position_y := y }

def mk_block (t : String) (size : ℚ) (bold : Bool) (page : Nat) : Block :=
  { text := pstr t, page := page, font_size := size, font_name := pstr "Arial",
    is_bold := bold, bbox := (0, 0, 0, 0) }

/-! ## Claim C1 -/

/-- Claim C1: for every document whose extraction yields zero text elements,
including documents where the PDF reader raises, `extract_headings` returns
an artifact whose title is `None` or the empty string and whose outline is
the empty list.  The embedding is a total function, which models that the
`try/except` wrapper never lets an exception propagate to the caller. -/
theorem claim_C1 (input : Except Unit (List TextElementF))
    (hz : input = Except.error () ∨ input = Except.ok []) :
    (extract_headings input).outline = [] ∧
      ((extract_headings input).title = none ∨
        (extract_headings input).title = some []) := by
  rcases hz with rfl | rfl
  · exact ⟨rfl, Or.inr rfl⟩
  · exact ⟨rfl, Or.inl rfl⟩

/-- Witness for C1 at the concrete zero-element input. -/
theorem claim_C1_witness :
    (extract_headings (Except.ok ([] : List TextElementF))).outline = [] ∧
      ((extract_headings (Except.ok ([] : List TextElementF))).title = none ∨
        (extract_headings (Except.ok ([] : List TextElementF))).title = some []) :=
  claim_C1 (Except.ok []) (Or.inr rfl)

/-! ## Claim C4 -/

/-- Claim C4: in every final outline no two headings share the same
`(lowercased trimmed text, page)` key, and every surviving heading is the
first heading with its key in the traversal order that produced the heading
list (`heading_candidates`); later duplicates are dropped. -/
theorem claim_C4 (elements : List TextElementF) (avg_size : ℚ) (title : Option PStr) :
    ((find_headings_fast elements avg_size title).map heading_key).Nodup ∧
    ∀ h ∈ find_headings_fast elements avg_size title,
      (heading_candidates elements avg_size (size_75th_of elements avg_size)
          (size_90th_of elements avg_size) title).find?
        (fun x => decide (heading_key x = heading_key h)) = some h := by
  constructor
  · simp only [find_headings_fast]
    split
    · simp
    · exact ((py_sort_perm heading_le _).map heading_key).symm.nodup
        (dedup_seen_keys [] _).1
  · intro h hm
    simp only [find_headings_fast] at hm
    split at hm
    · simp at hm
    · have h1 := mem_py_sort.mp hm
      exact (dedup_seen_find [] _ h h1).2

def c4_elements : List TextElementF :=
  [mk_element "1. Introduction Overview" 12 false 1 (1/2) 0,
   mk_element "1. Introduction Overview" 12 false 2 (1/2) 0,
   mk_element "1. Introduction Overview" 12 false 1 (3/5) 0,
   mk_element "General Discussion Points" 12 false 1 (1/2) 0]

def c4_heading : HeadingF :=
  { text := pstr "1. Introduction Overview ", level := 3, page := 1 }

/-- Witness for C4: a concrete element list with a duplicated heading text on
page 1; the surviving heading is the first occurrence. -/
theorem claim_C4_witness :
    ((find_headings_fast c4_elements 12 none).map heading_key).Nodup ∧
    (heading_candidates c4_elements 12 (size_75th_of c4_elements 12)
        (size_90th_of c4_elements 12) none).find?
      (fun x => decide (heading_key x = heading_key c4_heading)) = some c4_heading :=
  ⟨(claim_C4 c4_elements 12 none).1,
   (claim_C4 c4_elements 12 none).2 c4_heading (by with_unfolding_all decide)⟩

/-! ## Claim C6 -/

/-- Claim C6: with a non-empty extracted title, no heading of the outline has
a lowercased text contained in the lowercased title or containing it; such
elements are skipped by the candidate loop and never appear. -/
theorem claim_C6 (elements : List TextElementF) (avg_size : ℚ) (t : PStr) (ht : t ≠ []) :
    ∀ h ∈ find_headings_fast elements avg_size (some t),
      str_in (plower (pstrip h.text)) (plower t) = false ∧
      str_in (plower t) (plower (pstrip h.text)) = false := by
  intro h hm
  obtain ⟨-, e, -, heq⟩ := mem_find_headings hm
  obtain ⟨hguard, -, -, -⟩ := candidate_of_eq_some heq
  rw [heading_text_pstrip heq]
  simp only [title_or, Option.getD_some] at hguard
  have htr : title_truthy (some t) = true := by
    simp [title_truthy, List.isEmpty_iff, ht]
  rw [htr, Bool.true_and] at hguard
  exact Bool.or_eq_false_iff.mp hguard

def c6_elements : List TextElementF :=
  [mk_element "1. Introduction Overview" 12 false 1 (1/2) 0,
   mk_element "Machine Learning" 12 false 1 (1/2) 0]

def c6_title : PStr := pstr "Machine Learning Survey"

def c6_heading : HeadingF :=
  { text := pstr "1. Introduction Overview ", level := 3, page := 1 }

/-- Witness for C6: the element whose text is contained in the title is
dropped; the surviving heading is unrelated to the title. -/
theorem claim_C6_witness :
    str_in (plower (pstrip c6_heading.text)) (plower c6_title) = false ∧
    str_in (plower c6_title) (plower (pstrip c6_heading.text)) = false :=
  claim_C6 c6_elements 12 c6_title (by decide) c6_heading (by with_unfolding_all decide)

/-! ## Claim C9 -/

/-- Claim C9: the classifier stores each heading text with a trailing space,
and the serialized outline strips it: every serialized text has no leading or
trailing whitespace. -/
theorem claim_C9 (elements : List TextElementF) (avg_size : ℚ) (title : Option PStr) :
    ∀ h ∈ find_headings_fast elements avg_size title,
      h.text.getLast? = some ' ' ∧
      (HeadingF.to_dict h).text = pstrip h.text ∧
      (∀ c, ((HeadingF.to_dict h).text).head? = some c → isPySpace c = false) ∧
      (∀ c, ((HeadingF.to_dict h).text).getLast? = some c → isPySpace c = false) := by
  intro h hm
  obtain ⟨-, e, -, heq⟩ := mem_find_headings hm
  refine ⟨heading_text_last heq, rfl, ?_, ?_⟩
  · intro c hc
    exact head?_pstrip h.text hc
  · intro c hc
    exact getLast?_pstrip h.text hc

def c9_elements : List TextElementF :=
  [mk_element "1. Introduction Overview" 12 false 1 (1/2) 0]

def c9_heading : HeadingF :=
  { text := pstr "1. Introduction Overview ", level := 3, page := 1 }

/-- Witness for C9 at a concrete outline heading. -/
theorem claim_C9_witness :
    c9_heading.text.getLast? = some ' ' ∧
    (HeadingF.to_dict c9_heading).text = pstrip c9_heading.text ∧
    (∀ c, ((HeadingF.to_dict c9_heading).text).head? = some c → isPySpace c = false) ∧
    (∀ c, ((HeadingF.to_dict c9_heading).text).getLast? = some c → isPySpace c = false) :=
  claim_C9 c9_elements 12 none c9_heading (by with_unfolding_all decide)

/-! ## Claim C2 -/

def c2_elements : List TextElementF :=
  [mk_element "1. Introduction Overview" 12 false 1 (1/2) 0,
   mk_element "General Discussion Points" 12 false 1 (1/2) 0,
   mk_element "Another Long Element Here" 12 false 1 (1/2) 0,
   mk_element "Hello" 12 false 1 (1/2) 0,
   mk_element "World" 12 false 1 (1/2) 0]

/-- Counterexample to C2 as stated: exactly 40 percent of the elements are
short (2 of 5), which satisfies the claim's "at least 40%" hypothesis, yet
the outline is non-empty, because the code tests the ratio with a strict
`> 0.4`. -/
theorem claim_C2_counterexample :
    2 * c2_elements.length ≤ 5 * (short_elements c2_elements).length ∧
    (extract_headings (Except.ok c2_elements)).outline ≠ [] := by
  constructor
  · with_unfolding_all decide
  · with_unfolding_all decide

/-- Claim C2 (amended): when strictly more than 40 percent of the elements
are short, or the title contains one of "application", "form", "grant", the
outline is empty. -/
theorem claim_C2_amended (elements : List TextElementF) (title : Option PStr) (avg_size : ℚ)
    (hcond : (elements ≠ [] ∧ 2 * elements.length < 5 * (short_elements elements).length) ∨
      form_title_keywords.any (fun k => str_in k (plower (title_or title))) = true) :
    find_headings_fast elements avg_size title = [] := by
  have hform : is_form_like elements title = true := by
    rcases hcond with ⟨hne, hgt⟩ | hkw
    · unfold is_form_like
      rw [Bool.or_eq_true]
      left
      rw [if_neg (show ¬(elements.isEmpty = true) by simp [List.isEmpty_iff, hne])]
      rw [decide_eq_true_eq]
      have hn : 0 < (elements.length : ℚ) := by
        exact_mod_cast List.length_pos.mpr hne
      rw [gt_iff_lt, div_lt_div_iff₀ (by norm_num) hn]
      have h5 : ((2 * elements.length : Nat) : ℚ)
          < ((5 * (short_elements elements).length : Nat) : ℚ) := by
        exact_mod_cast hgt
      push_cast at h5 ⊢
      linarith
    · unfold is_form_like
      rw [Bool.or_eq_true]
      exact Or.inr hkw
  simp [find_headings_fast, hform]

def c2w_elements : List TextElementF :=
  [mk_element "1. Introduction Overview" 12 false 1 (1/2) 0,
   mk_element "Hello" 12 false 1 (1/2) 0,
   mk_element "World" 12 false 1 (1/2) 0,
   mk_element "Again" 12 false 1 (1/2) 0]

/-- Witness for the amended C2: 3 of 4 elements are short (75 percent), and
the outline is empty although one element matches a heading pattern. -/
theorem claim_C2_amended_witness :
    (c2w_elements ≠ [] ∧ 2 * c2w_elements.length < 5 * (short_elements c2w_elements).length) ∧
    find_headings_fast c2w_elements 12 none = [] :=
  ⟨⟨by decide, by with_unfolding_all decide⟩,
   claim_C2_amended c2w_elements none 12
     (Or.inl ⟨by decide, by with_unfolding_all decide⟩)⟩

/-! ## Claim C3 -/

/-- Counterexample to C3 as stated: the text "1. Introduction" (digit,
period, space, word) is classified level 3 by
`_classify_heading_level_improved` at every bold/size combination tried, not
level 1: the numbered-section pattern sits in the H3 branch of the ladder,
and the `h1_patterns` attribute initialized in `__init__` is never consulted
by this classifier. -/
theorem claim_C3_counterexample :
    classify_heading_level_improved (pstr "1. Introduction") 100 10 10 10 true = 3 ∧
    classify_heading_level_improved (pstr "1. Introduction") 100 10 10 10 true ≠ 1 := by
  constructor
  · with_unfolding_all decide
  · with_unfolding_all decide

/-- Claim C3 (amended): an element whose stripped text matches the numbered
pattern `^\d+\.\s+\w` is classified level 3 regardless of font size, size
ratio and boldness, provided the text contains none of the hard-coded
document-specific H1/H2 fragments that sit earlier in the ladder. -/
theorem claim_C3_amended (text : PStr) (font_size avg_size size_75th size_90th : ℚ)
    (is_bold : Bool)
    (hnum : match_num_dot_space_word (pstrip text) = true)
    (h1 : h1_patterns_improved.any (fun p => str_in p (plower (pstrip text))) = false)
    (h2 : h2_patterns_improved.any (fun p => str_in p (plower (pstrip text))) = false) :
    classify_heading_level_improved text font_size avg_size size_75th size_90th is_bold
      = 3 := by
  simp [classify_heading_level_improved, h1, h2, hnum]

/-- Witness for the amended C3 at a large bold input. -/
theorem claim_C3_amended_witness :
    match_num_dot_space_word (pstrip (pstr "2. Methods")) = true ∧
    classify_heading_level_improved (pstr "2. Methods") 50 10 10 10 true = 3 :=
  ⟨by decide,
   claim_C3_amended (pstr "2. Methods") 50 10 10 10 true (by decide) (by decide)
     (by decide)⟩

/-! ## Claim C5 -/

theorem mem_first_occurrences_aux (l : List ℚ) :
    ∀ (seen : List ℚ) (x : ℚ), x ∈ l → x ∈ seen ∨ x ∈ first_occurrences_aux seen l := by
  induction l with
  | nil => intro seen x hx; cases hx
  | cons a t ih =>
      intro seen x hx
      simp only [first_occurrences_aux]
      split
      case isTrue ha =>
        rcases List.mem_cons.mp hx with rfl | hx'
        · exact Or.inl ha
        · exact ih seen x hx'
      case isFalse ha =>
        rcases List.mem_cons.mp hx with rfl | hx'
        · exact Or.inr (List.mem_cons_self _ _)
        · rcases ih (a :: seen) x hx' with h | h
          · rcases List.mem_cons.mp h with rfl | h2
            · exact Or.inr (List.mem_cons_self _ _)
            · exact Or.inl h2
          · exact Or.inr (List.mem_cons_of_mem _ h)

theorem mem_first_occurrences {l : List ℚ} {x : ℚ} (hx : x ∈ l) :
    x ∈ first_occurrences l := by
  rcases mem_first_occurrences_aux l [] x hx with h | h
  · cases h
  · exact h

theorem foldl_mode_max (l : List ℚ) (cs : List ℚ) :
    ∀ (c x : ℚ), x ∈ c :: cs →
      l.count x ≤ l.count
        (cs.foldl (fun best y => if l.count best < l.count y then y else best) c) := by
  induction cs with
  | nil =>
      intro c x hx
      rcases List.mem_cons.mp hx with rfl | h
      · simp
      · cases h
  | cons d cs ih =>
      intro c x hx
      simp only [List.foldl_cons]
      have hstep : l.count c ≤ l.count (if l.count c < l.count d then d else c) ∧
          l.count d ≤ l.count (if l.count c < l.count d then d else c) := by
        split <;> constructor <;> omega
      rcases List.mem_cons.mp hx with rfl | hx'
      · exact le_trans hstep.1 (ih _ _ (List.mem_cons_self _ _))
      · rcases List.mem_cons.mp hx' with rfl | hx''
        · exact le_trans hstep.2 (ih _ _ (List.mem_cons_self _ _))
        · exact ih _ _ (List.mem_cons_of_mem _ hx'')

/-- The modal size of `most_common_size` attains the maximal multiplicity. -/
theorem count_le_most_common (l : List ℚ) (x : ℚ) (hx : x ∈ l) :
    l.count x ≤ l.count (most_common_size l) := by
  have hfo := mem_first_occurrences hx
  cases hm : first_occurrences l with
  | nil => rw [hm] at hfo; cases hfo
  | cons c cs =>
      rw [hm] at hfo
      simp only [most_common_size, hm]
      exact foldl_mode_max l cs c x hfo

def c5_elements : List TextElementF :=
  [mk_element "General Discussion Points One" 10 false 1 (1/2) 0,
   mk_element "General Discussion Points Two" 10 false 1 (1/2) 0,
   mk_element "General Discussion Points Three" 10 false 1 (1/2) 0,
   mk_element "General Discussion Points Four" 10 false 1 (1/2) 0,
   mk_element "Heading Candidate Line" 14 false 1 (1/2) 0]

/-- Counterexample to C5 as stated: on this document the modal size is 10
while the mean is 54/5, the fast pipeline hands `_find_headings_fast` the
mean, and the resulting outline (empty) differs from the outline the same
pipeline would produce if it were parameterized by the mode (one heading);
so the size ratios of the fast extractor are driven by the mean, not the
mode. -/
theorem claim_C5_counterexample :
    avg_font_size c5_elements
        ≠ most_common_size (c5_elements.map (fun e => e.font.size)) ∧
    find_headings_fast c5_elements (avg_font_size c5_elements) none
        ≠ find_headings_fast c5_elements
            (most_common_size (c5_elements.map (fun e => e.font.size))) none ∧
    (extract_headings (Except.ok c5_elements)).outline = [] ∧
    find_headings_fast c5_elements
        (most_common_size (c5_elements.map (fun e => e.font.size))) none ≠ [] := by
  refine ⟨?_, ?_, ?_, ?_⟩
  · with_unfolding_all decide
  · with_unfolding_all decide
  · with_unfolding_all decide
  · with_unfolding_all decide

/-- Claim C5 (amended): the modal font size is the body-text size of
`PDFHeadingExtractor._analyze_font_statistics` (and it attains the maximal
multiplicity among all sizes, ties resolved to the earliest first
occurrence), while the fast extractor of `Challenge_1a` parameterizes its
heading decisions by the mean font size `avg_size`; the two statistics can
yield different outlines. -/
theorem claim_C5_amended (es : List TextElementF) :
    (∀ x ∈ es.map (fun e => e.font.size),
        (es.map (fun e => e.font.size)).count x ≤
          (es.map (fun e => e.font.size)).count
            ((analyze_font_statistics es).most_common_size)) ∧
    (analyze_font_statistics es).most_common_size
        = most_common_size (es.map (fun e => e.font.size)) ∧
    (es.isEmpty = false →
      (extract_headings (Except.ok es)).outline =
        (find_headings_fast es (avg_font_size es)
            (extract_title_fast es (list_max_q (es.map (fun e => e.font.size))))).map
          HeadingF.to_dict) := by
  refine ⟨?_, rfl, ?_⟩
  · intro x hx
    exact count_le_most_common _ x hx
  · intro hne
    simp only [extract_headings]
    rw [if_neg (by simp [hne])]

/-- Witness for the amended C5: the size 10 occurs most often in the
concrete document and the modal size dominates its count; the fast pipeline
outline equals the mean-parameterized pipeline outline. -/
theorem claim_C5_amended_witness :
    (c5_elements.map (fun e => e.font.size)).count (10 : ℚ) ≤
      (c5_elements.map (fun e => e.font.size)).count
        ((analyze_font_statistics c5_elements).most_common_size) ∧
    (extract_headings (Except.ok c5_elements)).outline =
      (find_headings_fast c5_elements (avg_font_size c5_elements)
          (extract_title_fast c5_elements
            (list_max_q (c5_elements.map (fun e => e.font.size))))).map
        HeadingF.to_dict :=
  ⟨(claim_C5_amended c5_elements).1 10 (by with_unfolding_all decide),
   (claim_C5_amended c5_elements).2.2 (by with_unfolding_all decide)⟩

/-! ## Claim C7 -/

theorem foldl_keyword_score (f g : PStr → Nat) (ks : List PStr) :
    ∀ init : Nat,
      ks.foldl (fun score k => score + f k * 5 + g k * 1) init
        = init + 5 * (ks.map f).sum + (ks.map g).sum := by
  induction ks with
  | nil => intro init; simp
  | cons k ks ih =>
      intro init
      simp only [List.foldl_cons, List.map_cons, List.sum_cons]
      rw [ih]
      ring

/-- Claim C7: the section score equals
`5 * (keyword occurrences in the lowered title) + (keyword occurrences in
the lowered joined content) + 2 [title colon] + 1 [more than 3 content
rows]`; sections scoring below 1 are discarded, at most 15 sections survive
per document, and at most 12 survive the global re-sort of a collection. -/
theorem claim_C7 (persona : PStr) (text_blocks : List Block)
    (docs : List (PStr × List Block)) :
    (∀ sec ∈ potential_sections text_blocks,
      section_score (get_persona_keywords persona) sec =
        5 * ((get_persona_keywords persona).map
              (fun k => count_occ k (plower sec.title))).sum
          + ((get_persona_keywords persona).map
              (fun k => count_occ k (plower (spjoin sec.content)))).sum
          + (if ':' ∈ sec.title then 2 else 0)
          + (if 3 < sec.content.length then 1 else 0)) ∧
    (∀ sec ∈ identify_sections text_blocks persona, 1 ≤ sec.importance_score) ∧
    (identify_sections text_blocks persona).length ≤ 15 ∧
    (top_sections docs persona).length ≤ 12 := by
  refine ⟨?_, ?_, ?_, ?_⟩
  · intro sec _
    simp only [section_score]
    rw [foldl_keyword_score]
    omega
  · intro sec hm
    simp only [identify_sections] at hm
    have h1 := List.mem_of_mem_take hm
    have h2 := mem_py_sort.mp h1
    have h3 := List.of_mem_filter h2
    simpa using h3
  · simp only [identify_sections]
    rw [List.length_take]
    exact Nat.min_le_left _ _
  · simp only [top_sections]
    rw [List.length_take]
    exact Nat.min_le_left _ _

def c7_persona : PStr := pstr "Travel Planner"

def c7_blocks : List Block :=
  [mk_block "Hotel Options: Best Places" 14 true 1,
   mk_block "The hotel booking includes breakfast and budget options for large groups" 10 false 1,
   mk_block "The museum tour explores the main attractions of the city" 10 false 2]

def c7_docs : List (PStr × List Block) := [(pstr "doc1.pdf", c7_blocks)]

def c7_section : Section :=
  { title := pstr "Hotel Options: Best Places"
    page := 1
    content := [pstr "Hotel Options: Best Places",
                pstr "The hotel booking includes breakfast and budget options for large groups",
                pstr "The museum tour explores the main attractions of the city"]
    importance_score := 0
    document := [] }

def c7_scored_section : Section := { c7_section with importance_score := 16 }

set_option maxRecDepth 8000 in
/-- Witness for C7 at a concrete one-section travel document. -/
theorem claim_C7_witness :
    (section_score (get_persona_keywords c7_persona) c7_section =
      5 * ((get_persona_keywords c7_persona).map
            (fun k => count_occ k (plower c7_section.title))).sum
        + ((get_persona_keywords c7_persona).map
            (fun k => count_occ k (plower (spjoin c7_section.content)))).sum
        + (if ':' ∈ c7_section.title then 2 else 0)
        + (if 3 < c7_section.content.length then 1 else 0)) ∧
    1 ≤ c7_scored_section.importance_score ∧
    (identify_sections c7_blocks c7_persona).length ≤ 15 ∧
    (top_sections c7_docs c7_persona).length ≤ 12 :=
  ⟨(claim_C7 c7_persona c7_blocks c7_docs).1 c7_section (by with_unfolding_all decide),
   (claim_C7 c7_persona c7_blocks c7_docs).2.1 c7_scored_section
     (by with_unfolding_all decide),
   (claim_C7 c7_persona c7_blocks c7_docs).2.2.1,
   (claim_C7 c7_persona c7_blocks c7_docs).2.2.2⟩

/-! ## Claim C8 -/

theorem subsections_loop_entries (persona task : PStr) (rest : List (Section × Int)) :
    ∀ (acc : List SubEntry) (counts : PStr → Nat),
      (∀ e ∈ acc, 80 < e.refined_text.length ∧
          ∃ c, e.refined_text = refine_text_for_persona c persona task) →
      ∀ e ∈ subsections_loop persona task rest acc counts,
        80 < e.refined_text.length ∧
          ∃ c, e.refined_text = refine_text_for_persona c persona task := by
  induction rest with
  | nil =>
      intro acc counts hacc e he
      simp only [subsections_loop] at he
      exact hacc e he
  | cons p rest ih =>
      obtain ⟨sec, score⟩ := p
      intro acc counts hacc e he
      simp only [subsections_loop] at he
      split at he
      · exact ih acc counts hacc e he
      · split at he
        case isTrue hok =>
          rw [Bool.and_eq_true] at hok
          have hacc2 : ∀ e' ∈ acc ++
              [{ document := sec.document
                 refined_text := refine_text_for_persona (section_content_text sec) persona task
                 page_number := sec.page }],
              80 < e'.refined_text.length ∧
                ∃ c, e'.refined_text = refine_text_for_persona c persona task := by
            intro e' he'
            rcases List.mem_append.mp he' with h | h
            · exact hacc e' h
            · rw [List.mem_singleton] at h
              subst h
              refine ⟨?_, ⟨section_content_text sec, rfl⟩⟩
              have := hok.2
              simpa using this
          split at he
          · exact hacc2 e he
          · exact ih _ _ hacc2 e he
        case isFalse => exact ih acc counts hacc e he

theorem subsections_loop_count (persona task : PStr) (rest : List (Section × Int)) :
    ∀ (acc : List SubEntry) (counts : PStr → Nat),
      (∀ d', counts d' = acc.countP (fun e => decide (e.document = d'))) →
      (∀ d', acc.countP (fun e => decide (e.document = d')) ≤ 3) →
      ∀ d, (subsections_loop persona task rest acc counts).countP
          (fun e => decide (e.document = d)) ≤ 3 := by
  induction rest with
  | nil =>
      intro acc counts hc hb d
      simpa [subsections_loop] using hb d
  | cons p rest ih =>
      obtain ⟨sec, score⟩ := p
      intro acc counts hc hb d
      simp only [subsections_loop]
      split
      · exact ih acc counts hc hb d
      case isFalse hlt =>
        split
        case isTrue hok =>
          have hone : ∀ d', (acc ++
              [({ document := sec.document
                  refined_text := refine_text_for_persona (section_content_text sec) persona task
                  page_number := sec.page } : SubEntry)]).countP
                (fun e => decide (e.document = d'))
              = acc.countP (fun e => decide (e.document = d'))
                + (if sec.document = d' then 1 else 0) := by
            intro d'
            rw [List.countP_append]
            simp [List.countP_cons]
          have hb2 : ∀ d', (acc ++
              [({ document := sec.document
                  refined_text := refine_text_for_persona (section_content_text sec) persona task
                  page_number := sec.page } : SubEntry)]).countP
                (fun e => decide (e.document = d')) ≤ 3 := by
            intro d'
            rw [hone d']
            by_cases hd : sec.document = d'
            · rw [if_pos hd]
              rw [hd] at hlt
              have hcd := hc d'
              omega
            · rw [if_neg hd]
              have := hb d'
              omega
          split
          · exact hb2 d
          · refine ih _ _ ?_ hb2 d
            intro d'
            rw [hone d']
            by_cases hd : d' = sec.document
            · rw [if_pos hd, if_pos hd.symm, hc d']
            · rw [if_neg hd, if_neg (fun he => hd he.symm), hc d']
              omega
        case isFalse => exact ih acc counts hc hb d

theorem select_fold_inv (Q : PStr → Prop) (pairs : List (PStr × Nat)) :
    ∀ (st : List PStr × Nat),
      (∀ s ∈ st.1, Q s) → (∀ p ∈ pairs, Q p.1) →
      ∀ s ∈ (pairs.foldl select_step st).1, Q s := by
  induction pairs with
  | nil => intro st h1 _ s hs; exact h1 s hs
  | cons p pairs ih =>
      intro st h1 h2 s hs
      simp only [List.foldl_cons] at hs
      refine ih (select_step st p) ?_ (fun q hq => h2 q (List.mem_cons_of_mem _ hq)) s hs
      intro s' hs'
      simp only [select_step] at hs'
      by_cases hcond :
          (decide (st.2 + p.1.length < 500) && decide (st.1.length < 4)) = true
      · rw [if_pos hcond] at hs'
        rcases List.mem_append.mp hs' with h | h
        · exact h1 s' h
        · rw [List.mem_singleton] at h
          subst h
          exact h2 p (List.mem_cons_self _ _)
      · rw [if_neg hcond] at hs'
        exact h1 s' hs'

theorem mem_sorted_relevant (text persona task : PStr) :
    ∀ p ∈ sorted_relevant text persona task,
      p.2 = sentence_relevance persona task p.1 ∧ 1 ≤ p.2 := by
  intro p hp
  simp only [sorted_relevant] at hp
  have h1 := mem_py_sort.mp hp
  simp only [relevant_sentences] at h1
  obtain ⟨sen, hsen, hf⟩ := List.mem_filterMap.mp h1
  split at hf
  · exact absurd hf (by simp)
  · split at hf
    case isTrue hsc =>
      obtain rfl := Option.some.inj hf
      exact ⟨rfl, hsc⟩
    case isFalse => exact absurd hf (by simp)

/-- Claim C8: every `subsection_analysis` row has a refined text longer than
80 characters built by `refine_text_for_persona`, at most 3 rows come from a
single document, and sentences scoring below 1 are never selected into any
refined text. -/
theorem claim_C8 (sections : List Section) (persona task : PStr) :
    (∀ e ∈ analyze_subsections sections persona task,
        80 < e.refined_text.length ∧
          ∃ c, e.refined_text = refine_text_for_persona c persona task) ∧
    (∀ d, (analyze_subsections sections persona task).countP
        (fun e => decide (e.document = d)) ≤ 3) ∧
    (∀ text s, s ∈ select_sentences (sorted_relevant text persona task) →
        1 ≤ sentence_relevance persona task s) := by
  refine ⟨?_, ?_, ?_⟩
  · intro e he
    simp only [analyze_subsections] at he
    exact subsections_loop_entries persona task _ [] (fun _ => 0) (by simp) e he
  · intro d
    simp only [analyze_subsections]
    exact subsections_loop_count persona task _ [] (fun _ => 0) (by simp) (by simp) d
  · intro text s hs
    simp only [select_sentences] at hs
    refine select_fold_inv (fun s => 1 ≤ sentence_relevance persona task s)
      (sorted_relevant text persona task) ([], 0) (by simp) ?_ s hs
    intro p hp
    have h := mem_sorted_relevant text persona task p hp
    omega

def c8_persona : PStr := pstr "Travel Planner"

def c8_task : PStr := pstr "Plan a trip with friends"

def c8_section : Section :=
  { title := pstr "Hotel Options: Best Places"
    page := 2
    content :=
      [pstr "The hotel booking includes breakfast and budget options for large groups of friends.",
       pstr "The museum tour explores the main attractions of the city with an expert guide."]
    importance_score := 9
    document := pstr "south.pdf" }

def c8_sections : List Section := [c8_section]

def c8_entry : SubEntry :=
  { document := pstr "south.pdf"
    refined_text := pstr "The museum tour explores the main attractions of the city with an expert guide. The hotel booking includes breakfast and budget options for large groups of friends."
    page_number := 2 }

def c8_sentence : PStr :=
  pstr "The museum tour explores the main attractions of the city with an expert guide"

set_option maxRecDepth 8000 in
/-- Witness for C8 at a concrete one-section travel collection. -/
theorem claim_C8_witness :
    (80 < c8_entry.refined_text.length ∧
      ∃ c, c8_entry.refined_text = refine_text_for_persona c c8_persona c8_task) ∧
    (analyze_subsections c8_sections c8_persona c8_task).countP
        (fun e => decide (e.document = pstr "south.pdf")) ≤ 3 ∧
    1 ≤ sentence_relevance c8_persona c8_task c8_sentence :=
  ⟨(claim_C8 c8_sections c8_persona c8_task).1 c8_entry (by with_unfolding_all decide),
   (claim_C8 c8_sections c8_persona c8_task).2.1 (pstr "south.pdf"),
   (claim_C8 c8_sections c8_persona c8_task).2.2 (section_content_text c8_section)
     c8_sentence (by with_unfolding_all decide)⟩

/-! ## Claim C10 -/

/-- Claim C10: each `extracted_sections` row carries a title truncated to at
most 80 characters (the first 80 of the owning section title) and an
`importance_rank` equal to its 1-based position in the score-descending
global ordering, so ranks are consecutive `1..K`. -/
theorem claim_C10 (docs : List (PStr × List Block)) (persona : PStr) (i : Nat)
    (hi : i < (extracted_sections docs persona).length) :
    (extracted_sections docs persona)[i].importance_rank = i + 1 ∧
    (extracted_sections docs persona)[i].section_title.length ≤ 80 ∧
    ∃ sec ∈ top_sections docs persona,
      (extracted_sections docs persona)[i].section_title = sec.title.take 80 := by
  have hi1 : i < (top_sections docs persona).enum.length := by
    simpa [extracted_sections] using hi
  have hi2 : i < (top_sections docs persona).length := by
    simpa [List.enum_length] using hi1
  have hget : (extracted_sections docs persona)[i] =
      { document := (top_sections docs persona)[i].document
        section_title := (top_sections docs persona)[i].title.take 80
        importance_rank := i + 1
        page_number := (top_sections docs persona)[i].page } := by
    simp only [extracted_sections]
    rw [List.getElem_map, List.getElem_enum]
  rw [hget]
  refine ⟨rfl, ?_, ⟨(top_sections docs persona)[i], List.getElem_mem hi2, rfl⟩⟩
  simp [List.length_take]

def c10_docs : List (PStr × List Block) :=
  [(pstr "doc1.pdf",
    [mk_block "Hotel Options: Best Places" 14 true 1,
     mk_block "The hotel booking includes breakfast and budget options for large groups" 10 false 1])]

set_option maxRecDepth 8000 in
/-- Witness for C10 at a concrete one-document collection with a non-empty
ranked output. -/
theorem claim_C10_witness :
    ((extracted_sections c10_docs c7_persona).get
        ⟨0, by with_unfolding_all decide⟩).importance_rank = 0 + 1 ∧
    ((extracted_sections c10_docs c7_persona).get
        ⟨0, by with_unfolding_all decide⟩).section_title.length ≤ 80 ∧
    ∃ sec ∈ top_sections c10_docs c7_persona,
      ((extracted_sections c10_docs c7_persona).get
          ⟨0, by with_unfolding_all decide⟩).section_title = sec.title.take 80 :=
  claim_C10 c10_docs c7_persona 0 (by with_unfolding_all decide)
